import Mathlib

/-!
Verification of the pyxis-mcp-server request/response adaptation layer.

Shallow embedding of `src/pyxis_mcp/client.py`, `src/pyxis_mcp/models.py`
and `src/pyxis_mcp/server.py`.  JSON payloads, HTTP outcomes and raised
exceptions are made explicit; Python integers are `Int`, Python strings
are `String`.  The float-valued fields of the source (`timeout`,
`cvss_score`) are carried as their rendered decimal text, since no
arithmetic is ever performed on them by the code under study.
-/

/-- A JSON value, as produced by `response.json()` in the source.
Numbers are restricted to integers: the code under study never does
arithmetic on response numbers beyond equality and comparison. -/
inductive JsonVal where
  | null
  | bool (b : Bool)
  | num (n : Int)
  | str (s : String)
  | arr (elems : List JsonVal)
  | obj (fields : List (String × JsonVal))

/-- Python dict lookup over the field list of a JSON object (first match,
mirroring the impossibility of duplicate keys in a Python dict). -/
def jsonField : List (String × JsonVal) → String → Option JsonVal
  | [], _ => none
  | (k, v) :: rest, key => if k == key then some v else jsonField rest key

/-- Python truthiness of a JSON value (`if x:`). -/
def pyTruthy : JsonVal → Bool
  | .null => false
  | .bool b => b
  | .num n => !(n == 0)
  | .str s => !(s == "")
  | .arr xs => !xs.isEmpty
  | .obj fs => !fs.isEmpty

/-- Substring test over character lists: `needle.isPrefixOf` some suffix. -/
def charsContains (needle : List Char) : List Char → Bool
  | [] => needle.isEmpty
  | c :: rest => needle.isPrefixOf (c :: rest) || charsContains needle rest

/-- Python `needle in hay` on strings (substring containment). -/
def strContains (hay needle : String) : Bool :=
  charsContains needle.toList hay.toList

mutual

/-- Python `repr` of a JSON value (string escaping inside `repr` is not
reproduced; the values exercised here contain no quotes). -/
def pyRepr : JsonVal → String
  | .null => "None"
  | .bool true => "True"
  | .bool false => "False"
  | .num n => toString n
  | .str s => "'" ++ s ++ "'"
  | .arr xs => "[" ++ pyReprList xs ++ "]"
  | .obj fs => "\x7b" ++ pyReprFields fs ++ "\x7d"

/-- Comma-joined `repr` of list elements. -/
def pyReprList : List JsonVal → String
  | [] => ""
  | [x] => pyRepr x
  | x :: y :: xs => pyRepr x ++ ", " ++ pyReprList (y :: xs)

/-- Comma-joined `repr` of dict entries. -/
def pyReprFields : List (String × JsonVal) → String
  | [] => ""
  | [(k, v)] => "'" ++ k ++ "': " ++ pyRepr v
  | (k, v) :: f :: fs => "'" ++ k ++ "': " ++ pyRepr v ++ ", " ++ pyReprFields (f :: fs)

end

/-- Python `str()` of a JSON value (as used by f-string interpolation). -/
def pyStr : JsonVal → String
  | .str s => s
  | j => pyRepr j

/-- Python `k in x` for a JSON value `x`; `.error ()` models the
`TypeError` raised on int/float/bool/None operands. -/
def pyContains : JsonVal → String → Except Unit Bool
  | .obj fs, k => .ok (jsonField fs k).isSome
  | .arr xs, k => .ok (xs.any fun e => match e with | .str s => s == k | _ => false)
  | .str s, k => .ok (strContains s k)
  | _, _ => .error ()

/-- Python `x[k]` for a string key; `.error ()` models the `TypeError`
raised on list/str operands (the dict-miss `KeyError` is unreachable in
the source, which subscripts only after a membership check). -/
def pySubscript : JsonVal → String → Except Unit JsonVal
  | .obj fs, k =>
    match jsonField fs k with
    | some v => .ok v
    | none => .error ()
  | _, _ => .error ()

/-- Python `k in xs` for a list: true exactly when some element is the
string `k` (equality between a string and a non-string is `False`).
Definitionally the probe used by `pyContains` on arrays. -/
def pyListHasStr (xs : List JsonVal) (k : String) : Bool :=
  xs.any fun e => match e with | .str s => s == k | _ => false

/-!  ## client.py: error taxonomy and `PyxisClient._make_request`  -/

/-- The exception taxonomy of `client.py`: `PyxisAuthError` and
`PyxisConnectionError` are subclasses of the base `PyxisError`; bare
`PyxisError` instances are the generic API errors. -/
inductive PyxisError where
  | authError (msg : String)
  | connectionError (msg : String)
  | apiError (msg : String)
deriving DecidableEq

/-- `str(e)` of a Pyxis exception: its message. -/
def PyxisError.message : PyxisError → String
  | .authError m => m
  | .connectionError m => m
  | .apiError m => m

/-- The observable outcome of `self._client.request(...)`:
a timeout, a connection failure, or a completed HTTP exchange. -/
structure HttpResponse where
  status_code : Int
  /-- Result of `response.json()`: `none` models a parse exception. -/
  jsonBody : Option JsonVal
  /-- Rendering of the JSON parse exception (used only when `jsonBody`
  is `none`). -/
  jsonErrorText : String := ""
  /-- `response.text`, the raw body. -/
  text : String := ""

inductive RequestOutcome where
  | timeout
  | connectError
  | completed (resp : HttpResponse)

/-- The `try/except` block appending the error detail in
`_make_request` for a status ≥ 400 response: prefer the `detail` field,
then `message`; fall back to the raw body text whenever anything raised
(JSON parse failure, or `TypeError` from `in`/subscript on a non-dict);
append nothing when the body is a dict with neither field. -/
def requestErrorSuffix (jsonBody : Option JsonVal) (text : String) : String :=
  match jsonBody with
  | none => ": " ++ text
  | some j =>
    match pyContains j "detail" with
    | .error _ => ": " ++ text
    | .ok true =>
      match pySubscript j "detail" with
      | .ok v => ": " ++ pyStr v
      | .error _ => ": " ++ text
    | .ok false =>
      match pyContains j "message" with
      | .error _ => ": " ++ text
      | .ok true =>
        match pySubscript j "message" with
        | .ok v => ": " ++ pyStr v
        | .error _ => ": " ++ text
      | .ok false => ""

/-- `PyxisClient._make_request`, as a function of the transport outcome.
`url` is the joined request URL and `timeoutRepr` the decimal rendering
of the configured float timeout (default `"30.0"`). -/
def makeRequest (url timeoutRepr : String) : RequestOutcome → Except PyxisError JsonVal
  | .timeout =>
    .error (.connectionError ("Request to " ++ url ++ " timed out after " ++ timeoutRepr ++ "s"))
  | .connectError =>
    .error (.connectionError ("Failed to connect to " ++ url))
  | .completed resp =>
    if resp.status_code = 401 then
      .error (.authError "Authentication failed. Check your API key.")
    else if 400 ≤ resp.status_code then
      .error (.apiError ("Request failed with status " ++ toString resp.status_code
        ++ requestErrorSuffix resp.jsonBody resp.text))
    else
      match resp.jsonBody with
      | some j => .ok j
      | none => .error (.apiError ("Failed to parse JSON response: " ++ resp.jsonErrorText))

/-- C1 counterexample input: a 500 response whose body is valid JSON with
neither a `detail` nor a `message` field. -/
def c1Resp : HttpResponse :=
  { status_code := 500
    jsonBody := some (.obj [("foo", .str "bar")])
    text := "\x7b\"foo\": \"bar\"\x7d" }

/-!  ## models.py: domain entities, parsed from JSON with pydantic-v1
semantics (required identity field under alias `_id`, optional fields
defaulting to `None`, unknown extra fields ignored).  Datetimes and the
float `cvss_score` are carried as their rendered text. -/

/-- Container repository information. -/
structure Repository where
  registry : Option String := none
  repository : Option String := none
  push_date : Option String := none
  tags : Option (List String) := none
  published : Option Bool := none

/-- Security vulnerability information. -/
structure Vulnerability where
  cve : Option String := none
  cvss_score : Option String := none
  cvss_vector : Option String := none
  cwe : Option String := none
  impact : Option String := none
  public_date : Option String := none
  severity : Option String := none
  description : Option String := none
  package_name : Option String := none
  package_version : Option String := none
  fixed_version : Option String := none

/-- Content set information. -/
structure ContentSet where
  name : Option String := none
  type : Option String := none

/-- Brew build information. -/
structure BrewBuild where
  build : Option String := none
  nvr : Option String := none
  id : Option Int := none

/-- Container image metadata. -/
structure ContainerImage where
  id : String
  architecture : Option String := none
  brew : Option BrewBuild := none
  certified : Option Bool := none
  content_sets : Option (List ContentSet) := none
  cpe_ids : Option (List String) := none
  creation_date : Option String := none
  docker_image_digest : Option String := none
  freshness_grades : Option (List JsonVal) := none
  image_id : Option String := none
  last_update_date : Option String := none
  media_type : Option String := none
  parsed_data : Option JsonVal := none
  repositories : Option (List Repository) := none
  sum_layer_size_bytes : Option Int := none
  uncompressed_size_bytes : Option Int := none
  vulnerabilities : Option (List Vulnerability) := none

/-- Certification project information. -/
structure CertificationProject where
  id : String
  name : Option String := none
  project_status : Option String := none
  certification_status : Option String := none
  type : Option String := none
  application_type : Option String := none
  vendor_label : Option String := none
  registry_override_instruct : Option String := none
  short_description : Option String := none
  long_description : Option String := none
  creation_date : Option String := none
  last_update_date : Option String := none
  container : Option JsonVal := none

/-- Operator bundle metadata. -/
structure OperatorBundle where
  id : String
  bundle_path : Option String := none
  csv_name : Option String := none
  package_name : Option String := none
  channel_name : Option String := none
  version : Option String := none
  ocp_version : Option String := none
  organization : Option String := none
  registry : Option String := none
  repository : Option String := none
  creation_date : Option String := none
  last_update_date : Option String := none
  certified : Option Bool := none

/-- pydantic-v1 style missing-required-field message for the identity
field (validated under its alias `_id`). -/
def missingIdError (model : String) : String :=
  "1 validation error for " ++ model ++ "\n_id\n  field required (type=value_error.missing)"

/-- pydantic-v1 style wrong-type message (exact wording approximated;
no theorem below depends on its text). -/
def fieldTypeError (model field : String) : String :=
  "1 validation error for " ++ model ++ "\n" ++ field ++ "\n  invalid type"

/-- Coercion of a JSON value into a required `str` field (pydantic v1
coerces numbers; `None` and containers are rejected). -/
def coerceStr (model field : String) : JsonVal → Except String String
  | .str s => .ok s
  | .num n => .ok (toString n)
  | .bool b => .ok (if b then "True" else "False")
  | _ => .error (fieldTypeError model field)

/-- Optional `str` field: absent or `null` resolves to `none`. -/
def getOptStr (model field : String) (fs : List (String × JsonVal)) :
    Except String (Option String) :=
  match jsonField fs field with
  | none => .ok none
  | some .null => .ok none
  | some v => (coerceStr model field v).map some

/-- Optional `int` field (pydantic v1 coerces digit strings and bools). -/
def getOptInt (model field : String) (fs : List (String × JsonVal)) :
    Except String (Option Int) :=
  match jsonField fs field with
  | none => .ok none
  | some .null => .ok none
  | some (.num n) => .ok (some n)
  | some (.bool b) => .ok (some (if b then 1 else 0))
  | some (.str s) =>
    match s.toInt? with
    | some n => .ok (some n)
    | none => .error (fieldTypeError model field)
  | some _ => .error (fieldTypeError model field)

/-- Optional `bool` field (pydantic v1 also accepts 0/1 and the usual
truthy/falsy strings; the string forms are approximated by the two
common literals). -/
def getOptBool (model field : String) (fs : List (String × JsonVal)) :
    Except String (Option Bool) :=
  match jsonField fs field with
  | none => .ok none
  | some .null => .ok none
  | some (.bool b) => .ok (some b)
  | some (.num 0) => .ok (some false)
  | some (.num 1) => .ok (some true)
  | some (.str "true") => .ok (some true)
  | some (.str "false") => .ok (some false)
  | some _ => .error (fieldTypeError model field)

/-- Optional open-ended field (`Dict[str, Any]` / `datetime`-free any):
kept verbatim. -/
def getOptAny (fs : List (String × JsonVal)) (field : String) :
    Except String (Option JsonVal) :=
  match jsonField fs field with
  | none => .ok none
  | some .null => .ok none
  | some v => .ok (some v)

/-- Optional `List[str]` field. -/
def getOptStrList (model field : String) (fs : List (String × JsonVal)) :
    Except String (Option (List String)) :=
  match jsonField fs field with
  | none => .ok none
  | some .null => .ok none
  | some (.arr xs) =>
    (xs.mapM (coerceStr model field)).map some
  | some _ => .error (fieldTypeError model field)

/-- Optional list of arbitrary JSON values (`List[Dict[str, Any]]`). -/
def getOptJsonList (model field : String) (fs : List (String × JsonVal)) :
    Except String (Option (List JsonVal)) :=
  match jsonField fs field with
  | none => .ok none
  | some .null => .ok none
  | some (.arr xs) => .ok (some xs)
  | some _ => .error (fieldTypeError model field)

/-- `Repository(**payload)`: every field optional. -/
def parseRepository : JsonVal → Except String Repository
  | .obj fs => do
    let registry ← getOptStr "Repository" "registry" fs
    let repository ← getOptStr "Repository" "repository" fs
    let push_date ← getOptStr "Repository" "push_date" fs
    let tags ← getOptStrList "Repository" "tags" fs
    let published ← getOptBool "Repository" "published" fs
    .ok { registry, repository, push_date, tags, published }
  | _ => .error (fieldTypeError "Repository" "__root__")

/-- `Vulnerability(**payload)`: every field optional; the float
`cvss_score` is stored as rendered text. -/
def parseVulnerability : JsonVal → Except String Vulnerability
  | .obj fs => do
    let cve ← getOptStr "Vulnerability" "cve" fs
    let cvss_score ←
      (match jsonField fs "cvss_score" with
       | none => .ok none
       | some .null => .ok none
       | some (.num n) => .ok (some (toString n))
       | some (.str s) => .ok (some s)
       | some _ => .error (fieldTypeError "Vulnerability" "cvss_score"))
    let cvss_vector ← getOptStr "Vulnerability" "cvss_vector" fs
    let cwe ← getOptStr "Vulnerability" "cwe" fs
    let impact ← getOptStr "Vulnerability" "impact" fs
    let public_date ← getOptStr "Vulnerability" "public_date" fs
    let severity ← getOptStr "Vulnerability" "severity" fs
    let description ← getOptStr "Vulnerability" "description" fs
    let package_name ← getOptStr "Vulnerability" "package_name" fs
    let package_version ← getOptStr "Vulnerability" "package_version" fs
    let fixed_version ← getOptStr "Vulnerability" "fixed_version" fs
    .ok { cve, cvss_score, cvss_vector, cwe, impact, public_date, severity,
          description, package_name, package_version, fixed_version }
  | _ => .error (fieldTypeError "Vulnerability" "__root__")

/-- `ContentSet(**payload)`. -/
def parseContentSet : JsonVal → Except String ContentSet
  | .obj fs => do
    let name ← getOptStr "ContentSet" "name" fs
    let type ← getOptStr "ContentSet" "type" fs
    .ok { name, type }
  | _ => .error (fieldTypeError "ContentSet" "__root__")

/-- `BrewBuild(**payload)`. -/
def parseBrewBuild : JsonVal → Except String BrewBuild
  | .obj fs => do
    let build ← getOptStr "BrewBuild" "build" fs
    let nvr ← getOptStr "BrewBuild" "nvr" fs
    let id ← getOptInt "BrewBuild" "id" fs
    .ok { build, nvr, id }
  | _ => .error (fieldTypeError "BrewBuild" "__root__")

/-- Required identity field: validated by alias `_id` first, then (via
`allow_population_by_field_name`) by the field name `id`. -/
def getRequiredId (model : String) (fs : List (String × JsonVal)) :
    Except String String :=
  match jsonField fs "_id" with
  | some v => coerceStr model "_id" v
  | none =>
    match jsonField fs "id" with
    | some v => coerceStr model "_id" v
    | none => .error (missingIdError model)

/-- Optional nested-model list field. -/
def getOptModelList {α : Type} (model field : String)
    (p : JsonVal → Except String α) (fs : List (String × JsonVal)) :
    Except String (Option (List α)) :=
  match jsonField fs field with
  | none => .ok none
  | some .null => .ok none
  | some (.arr xs) => (xs.mapM p).map some
  | some _ => .error (fieldTypeError model field)

/-- `ContainerImage(**payload)`. -/
def parseContainerImage : JsonVal → Except String ContainerImage
  | .obj fs => do
    let id ← getRequiredId "ContainerImage" fs
    let architecture ← getOptStr "ContainerImage" "architecture" fs
    let brew ←
      (match jsonField fs "brew" with
       | none => .ok none
       | some .null => .ok none
       | some v => (parseBrewBuild v).map some)
    let certified ← getOptBool "ContainerImage" "certified" fs
    let content_sets ← getOptModelList "ContainerImage" "content_sets" parseContentSet fs
    let cpe_ids ← getOptStrList "ContainerImage" "cpe_ids" fs
    let creation_date ← getOptStr "ContainerImage" "creation_date" fs
    let docker_image_digest ← getOptStr "ContainerImage" "docker_image_digest" fs
    let freshness_grades ← getOptJsonList "ContainerImage" "freshness_grades" fs
    let image_id ← getOptStr "ContainerImage" "image_id" fs
    let last_update_date ← getOptStr "ContainerImage" "last_update_date" fs
    let media_type ← getOptStr "ContainerImage" "media_type" fs
    let parsed_data ← getOptAny fs "parsed_data"
    let repositories ← getOptModelList "ContainerImage" "repositories" parseRepository fs
    let sum_layer_size_bytes ← getOptInt "ContainerImage" "sum_layer_size_bytes" fs
    let uncompressed_size_bytes ← getOptInt "ContainerImage" "uncompressed_size_bytes" fs
    let vulnerabilities ← getOptModelList "ContainerImage" "vulnerabilities" parseVulnerability fs
    .ok { id, architecture, brew, certified, content_sets, cpe_ids, creation_date,
          docker_image_digest, freshness_grades, image_id, last_update_date,
          media_type, parsed_data, repositories, sum_layer_size_bytes,
          uncompressed_size_bytes, vulnerabilities }
  | _ => .error (fieldTypeError "ContainerImage" "__root__")

/-- `CertificationProject(**payload)`. -/
def parseCertificationProject : JsonVal → Except String CertificationProject
  | .obj fs => do
    let id ← getRequiredId "CertificationProject" fs
    let name ← getOptStr "CertificationProject" "name" fs
    let project_status ← getOptStr "CertificationProject" "project_status" fs
    let certification_status ← getOptStr "CertificationProject" "certification_status" fs
    let type ← getOptStr "CertificationProject" "type" fs
    let application_type ← getOptStr "CertificationProject" "application_type" fs
    let vendor_label ← getOptStr "CertificationProject" "vendor_label" fs
    let registry_override_instruct ← getOptStr "CertificationProject" "registry_override_instruct" fs
    let short_description ← getOptStr "CertificationProject" "short_description" fs
    let long_description ← getOptStr "CertificationProject" "long_description" fs
    let creation_date ← getOptStr "CertificationProject" "creation_date" fs
    let last_update_date ← getOptStr "CertificationProject" "last_update_date" fs
    let container ← getOptAny fs "container"
    .ok { id, name, project_status, certification_status, type, application_type,
          vendor_label, registry_override_instruct, short_description,
          long_description, creation_date, last_update_date, container }
  | _ => .error (fieldTypeError "CertificationProject" "__root__")

/-- `OperatorBundle(**payload)`. -/
def parseOperatorBundle : JsonVal → Except String OperatorBundle
  | .obj fs => do
    let id ← getRequiredId "OperatorBundle" fs
    let bundle_path ← getOptStr "OperatorBundle" "bundle_path" fs
    let csv_name ← getOptStr "OperatorBundle" "csv_name" fs
    let package_name ← getOptStr "OperatorBundle" "package_name" fs
    let channel_name ← getOptStr "OperatorBundle" "channel_name" fs
    let version ← getOptStr "OperatorBundle" "version" fs
    let ocp_version ← getOptStr "OperatorBundle" "ocp_version" fs
    let organization ← getOptStr "OperatorBundle" "organization" fs
    let registry ← getOptStr "OperatorBundle" "registry" fs
    let repository ← getOptStr "OperatorBundle" "repository" fs
    let creation_date ← getOptStr "OperatorBundle" "creation_date" fs
    let last_update_date ← getOptStr "OperatorBundle" "last_update_date" fs
    let certified ← getOptBool "OperatorBundle" "certified" fs
    .ok { id, bundle_path, csv_name, package_name, channel_name, version,
          ocp_version, organization, registry, repository, creation_date,
          last_update_date, certified }
  | _ => .error (fieldTypeError "OperatorBundle" "__root__")

/-!  ## models.py: paginated result envelopes  -/

/-- The entity union carried by the generic `SearchResults` envelope. -/
inductive SearchEntity where
  | image (i : ContainerImage)
  | project (p : CertificationProject)
  | operator_ (o : OperatorBundle)

/-- Generic search results container. -/
structure SearchResults where
  data : List SearchEntity
  total : Int
  page : Int
  page_size : Int

/-- `SearchResults.has_more`. -/
def SearchResults.has_more (r : SearchResults) : Bool :=
  decide ((r.page + 1) * r.page_size < r.total)

/-- Container image search results. -/
structure ImageSearchResults where
  data : List ContainerImage
  total : Int
  page : Int
  page_size : Int

/-- `ImageSearchResults.has_more`. -/
def ImageSearchResults.has_more (r : ImageSearchResults) : Bool :=
  decide ((r.page + 1) * r.page_size < r.total)

/-- Certification project search results. -/
structure ProjectSearchResults where
  data : List CertificationProject
  total : Int
  page : Int
  page_size : Int

/-- `ProjectSearchResults.has_more`. -/
def ProjectSearchResults.has_more (r : ProjectSearchResults) : Bool :=
  decide ((r.page + 1) * r.page_size < r.total)

/-- Operator search results. -/
structure OperatorSearchResults where
  data : List OperatorBundle
  total : Int
  page : Int
  page_size : Int

/-- `OperatorSearchResults.has_more`. -/
def OperatorSearchResults.has_more (r : OperatorSearchResults) : Bool :=
  decide ((r.page + 1) * r.page_size < r.total)

/-- Vulnerability search results. -/
structure VulnerabilitySearchResults where
  data : List Vulnerability
  total : Int
  page : Int
  page_size : Int

/-- `VulnerabilitySearchResults.has_more`. -/
def VulnerabilitySearchResults.has_more (r : VulnerabilitySearchResults) : Bool :=
  decide ((r.page + 1) * r.page_size < r.total)

/-- Required `int` field of an envelope payload. -/
def getReqInt (model field : String) (fs : List (String × JsonVal)) :
    Except String Int :=
  match jsonField fs field with
  | none => .error ("1 validation error for " ++ model ++ "\n" ++ field
      ++ "\n  field required (type=value_error.missing)")
  | some (.num n) => .ok n
  | some (.bool b) => .ok (if b then 1 else 0)
  | some (.str s) =>
    match s.toInt? with
    | some n => .ok n
    | none => .error (fieldTypeError model field)
  | some _ => .error (fieldTypeError model field)

/-- Required `data` list of an envelope payload, with element parser. -/
def getReqDataList {α : Type} (model : String)
    (p : JsonVal → Except String α) (fs : List (String × JsonVal)) :
    Except String (List α) :=
  match jsonField fs "data" with
  | none => .error ("1 validation error for " ++ model
      ++ "\ndata\n  field required (type=value_error.missing)")
  | some (.arr xs) => xs.mapM p
  | some _ => .error (fieldTypeError model "data")

/-- `ImageSearchResults(**response)`. -/
def parseImageSearchResults : JsonVal → Except String ImageSearchResults
  | .obj fs => do
    let data ← getReqDataList "ImageSearchResults" parseContainerImage fs
    let total ← getReqInt "ImageSearchResults" "total" fs
    let page ← getReqInt "ImageSearchResults" "page" fs
    let page_size ← getReqInt "ImageSearchResults" "page_size" fs
    .ok { data, total, page, page_size }
  | _ => .error (fieldTypeError "ImageSearchResults" "__root__")

/-- `ProjectSearchResults(**response)`. -/
def parseProjectSearchResults : JsonVal → Except String ProjectSearchResults
  | .obj fs => do
    let data ← getReqDataList "ProjectSearchResults" parseCertificationProject fs
    let total ← getReqInt "ProjectSearchResults" "total" fs
    let page ← getReqInt "ProjectSearchResults" "page" fs
    let page_size ← getReqInt "ProjectSearchResults" "page_size" fs
    .ok { data, total, page, page_size }
  | _ => .error (fieldTypeError "ProjectSearchResults" "__root__")

/-- `VulnerabilitySearchResults(**response)`. -/
def parseVulnerabilitySearchResults : JsonVal → Except String VulnerabilitySearchResults
  | .obj fs => do
    let data ← getReqDataList "VulnerabilitySearchResults" parseVulnerability fs
    let total ← getReqInt "VulnerabilitySearchResults" "total" fs
    let page ← getReqInt "VulnerabilitySearchResults" "page" fs
    let page_size ← getReqInt "VulnerabilitySearchResults" "page_size" fs
    .ok { data, total, page, page_size }
  | _ => .error (fieldTypeError "VulnerabilitySearchResults" "__root__")

/-!  ## models.py: formatting utilities  -/

/-- Python `x or fallback` on an optional string (`None` and the empty
string are falsy). -/
def pyOr (o : Option String) (fallback : String) : String :=
  match o with
  | some s => if s == "" then fallback else s
  | none => fallback

/-- The complete `registry/repository` pairs among the first 3
repositories (`repo.registry and repo.repository` truthiness). -/
def repoPairStrs (rlist : List Repository) : List String :=
  (rlist.take 3).filterMap fun repo =>
    match repo.registry, repo.repository with
    | some reg, some rep =>
      if reg == "" || rep == "" then none else some (reg ++ "/" ++ rep)
    | _, _ => none

/-- The parenthesised repositories fragment of the image one-line
summary, including the `+N more` suffix. -/
def reposPart (repositories : Option (List Repository)) : String :=
  match repositories with
  | none => ""
  | some rlist =>
    if rlist.isEmpty then ""
    else
      let repo_strs := repoPairStrs rlist
      if repo_strs.isEmpty then ""
      else
        let base := " (" ++ String.intercalate ", " repo_strs ++ ")"
        if 3 < rlist.length then
          base ++ " +" ++ toString (rlist.length - 3) ++ " more"
        else base

/-- The bracketed architecture fragment of the image one-line summary. -/
def archPart (architecture : Option String) : String :=
  match architecture with
  | some a => if a == "" then "" else " [" ++ a ++ "]"
  | none => ""

/-- The certification marker of the image one-line summary. -/
def certifiedPart (certified : Option Bool) : String :=
  if certified = some true then "✓ Certified" else "⚠ Not Certified"

/-- `format_image_summary`. -/
def format_image_summary (image : ContainerImage) : String :=
  image.id ++ reposPart image.repositories ++ archPart image.architecture
    ++ " - " ++ certifiedPart image.certified

/-- `format_project_summary`. -/
def format_project_summary (project : CertificationProject) : String :=
  pyOr project.name "Unnamed Project" ++ " (" ++ pyOr project.type "Unknown Type"
    ++ ") - Status: " ++ pyOr project.certification_status "Unknown"

/-- `format_operator_summary`. -/
def format_operator_summary (op : OperatorBundle) : String :=
  let name := pyOr op.csv_name (pyOr op.package_name "Unknown Operator")
  let version := match op.version with
    | some v => if v == "" then "" else " v" ++ v
    | none => ""
  let certified := if op.certified = some true then "✓ Certified" else "⚠ Not Certified"
  name ++ version ++ " - " ++ certified

/-- `format_vulnerability_summary`.  The falsiness of the float
`cvss_score` (`0.0`) is tested on its stored rendering. -/
def format_vulnerability_summary (vuln : Vulnerability) : String :=
  let cve := pyOr vuln.cve "Unknown CVE"
  let severity := pyOr vuln.severity "Unknown"
  let score := match vuln.cvss_score with
    | some s => if s == "0.0" || s == "" then "" else " (CVSS: " ++ s ++ ")"
    | none => ""
  let package := match vuln.package_name with
    | some p => if p == "" then "" else " in " ++ p
    | none => ""
  cve ++ " - " ++ severity ++ score ++ package

/-!  ## server.py: argument cleanup, query parameters, tools  -/

/-- The ASCII whitespace characters stripped by Python `str.strip()`
(the non-ASCII Unicode spaces it also strips are not exercised here). -/
def isPySpace (c : Char) : Bool :=
  c == ' ' || c == '\t' || c == '\n' || c == '\r' || c == '\x0b' || c == '\x0c'

/-- Python `s.strip()`. -/
def pyStrip (s : String) : String :=
  (((s.toList.dropWhile isPySpace).reverse.dropWhile isPySpace).reverse).asString

/-- The server-side cleanup `x.strip() if x else None` applied to every
string tool argument. -/
def pyOptStrip (s : String) : Option String :=
  if s == "" then none else some (pyStrip s)

/-- Truthiness of an `Optional[str]` (`if x:`). -/
def optStrTruthy : Option String → Bool
  | none => false
  | some s => !(s == "")

/-- A query-parameter entry present only under a guard (`if cond:
params[k] = v`). -/
def guardedParam (present : Bool) (k : String) (v : JsonVal) : List (String × JsonVal) :=
  if present then [(k, v)] else []

/-- Lookup in the assembled parameter mapping. -/
def lookupParam : List (String × JsonVal) → String → Option JsonVal
  | [], _ => none
  | (k, v) :: rest, key => if k == key then some v else lookupParam rest key

/-- `PyxisClient.search_images` parameter assembly. -/
def clientSearchImagesParams (query architecture registry : Option String)
    (certified : Option Bool) (page page_size : Int) : List (String × JsonVal) :=
  [("page", JsonVal.num page), ("page_size", JsonVal.num (min page_size 100))]
  ++ guardedParam (optStrTruthy query) "filter"
       (.str ("repositories.repository=match=" ++ query.getD ""))
  ++ guardedParam (optStrTruthy architecture) "architecture" (.str (architecture.getD ""))
  ++ guardedParam (optStrTruthy registry) "registry" (.str (registry.getD ""))
  ++ (match certified with
      | some b => [("certified", JsonVal.bool b)]
      | none => [])

/-- `PyxisClient.search_certification_projects` parameter assembly. -/
def clientSearchProjectsParams (query status : Option String)
    (page page_size : Int) : List (String × JsonVal) :=
  [("page", JsonVal.num page), ("page_size", JsonVal.num (min page_size 100))]
  ++ guardedParam (optStrTruthy query) "filter" (.str ("name=match=" ++ query.getD ""))
  ++ guardedParam (optStrTruthy status) "certification_status" (.str (status.getD ""))

/-- `PyxisClient.search_operators` parameter assembly. -/
def clientSearchOperatorsParams (query package : Option String)
    (page page_size : Int) : List (String × JsonVal) :=
  [("page", JsonVal.num page), ("page_size", JsonVal.num (min page_size 100))]
  ++ guardedParam (optStrTruthy query) "filter" (.str ("bundle_path=match=" ++ query.getD ""))
  ++ guardedParam (optStrTruthy package) "package" (.str (package.getD ""))

/-- `PyxisClient.search_repositories` parameter assembly. -/
def clientSearchRepositoriesParams (query registry : Option String)
    (page page_size : Int) : List (String × JsonVal) :=
  [("page", JsonVal.num page), ("page_size", JsonVal.num (min page_size 100))]
  ++ guardedParam (optStrTruthy query) "filter" (.str ("repository=match=" ++ query.getD ""))
  ++ guardedParam (optStrTruthy registry) "registry" (.str (registry.getD ""))

/-- The tool-level clamp `min(max(max_results, 1), 100)`. -/
def clampResults (m : Int) : Int := min (max m 1) 100

/-- The parameters the `search_images` tool causes to be sent to the
backend (server-side cleanup and clamp composed with the client
assembly; the tool always passes `page = 0`). -/
def searchImagesParams (query architecture registry : String)
    (certified : Bool) (max_results : Int) : List (String × JsonVal) :=
  clientSearchImagesParams (pyOptStrip query) (pyOptStrip architecture)
    (pyOptStrip registry) (if certified then some true else none)
    0 (clampResults max_results)

/-- Parameters sent by the `search_certification_projects` tool. -/
def searchProjectsParams (query status : String) (max_results : Int) :
    List (String × JsonVal) :=
  clientSearchProjectsParams (pyOptStrip query) (pyOptStrip status)
    0 (clampResults max_results)

/-- Parameters sent by the `search_operators` tool. -/
def searchOperatorsParams (query package : String) (max_results : Int) :
    List (String × JsonVal) :=
  clientSearchOperatorsParams (pyOptStrip query) (pyOptStrip package)
    0 (clampResults max_results)

/-- Parameters sent by the `search_repositories` tool. -/
def searchRepositoriesParams (query registry : String) (max_results : Int) :
    List (String × JsonVal) :=
  clientSearchRepositoriesParams (pyOptStrip query) (pyOptStrip registry)
    0 (clampResults max_results)

/-- The effective page size demanded by the specification: clamp into
`[1, 100]`, pass through in range. -/
def effectivePageSize (m : Int) : Int :=
  if 100 < m then 100 else if m < 1 then 1 else m

/-- An exception reaching a tool's `try` block: either one of the Pyxis
taxonomy, or anything else (pydantic `ValidationError`, `TypeError`,
...), carrying its `str()` rendering. -/
inductive RaisedError where
  | pyxis (e : PyxisError)
  | other (msg : String)

/-- The tool-boundary conversion: `except PyxisError as e: return
f"{categoryText}{e}"` then `except Exception as e: return f"Unexpected
error: {e}"`. -/
def toolError (categoryText : String) : RaisedError → String
  | .pyxis e => categoryText ++ e.message
  | .other m => "Unexpected error: " ++ m

/-- `AttributeError` rendering for `response.get` on a non-dict
`response.json()` result. -/
def pyTypeName : JsonVal → String
  | .null => "NoneType"
  | .bool _ => "bool"
  | .num _ => "int"
  | .str _ => "str"
  | .arr _ => "list"
  | .obj _ => "dict"

/-- Message of the `AttributeError` raised by `response.get(...)` when
the parsed body is not a dict. -/
def attrGetError (j : JsonVal) : String :=
  "'" ++ pyTypeName j ++ "' object has no attribute 'get'"

/-- `response.get("data")` truthiness test used by every tool. -/
def dataTruthy (fs : List (String × JsonVal)) : Bool :=
  pyTruthy ((jsonField fs "data").getD .null)

/-- The `search_images` tool, as a function of the outcome of the
single awaited client call (everything the `try` block can observe). -/
def search_images_tool (outcome : Except RaisedError JsonVal) : String :=
  match outcome with
  | .error e => toolError "Error searching images: " e
  | .ok response =>
    match response with
    | .obj fs =>
      if !dataTruthy fs then
        "No images found matching the specified criteria."
      else
        match parseImageSearchResults (.obj fs) with
        | .error m => "Unexpected error: " ++ m
        | .ok results =>
          if results.data.isEmpty then
            "No images found matching the specified criteria."
          else
            String.intercalate "\n"
              (["Found " ++ toString results.total ++ " images (showing "
                  ++ toString results.data.length ++ "):", ""]
               ++ results.data.map (fun image => "• " ++ format_image_summary image)
               ++ (if results.has_more then
                     ["", "... and " ++ toString (results.total - (results.data.length : Int))
                        ++ " more results available"]
                   else []))
    | other => "Unexpected error: " ++ attrGetError other

/-- The `search_certification_projects` tool. -/
def search_certification_projects_tool (outcome : Except RaisedError JsonVal) : String :=
  match outcome with
  | .error e => toolError "Error searching certification projects: " e
  | .ok response =>
    match response with
    | .obj fs =>
      if !dataTruthy fs then
        "No certification projects found matching the specified criteria."
      else
        match parseProjectSearchResults (.obj fs) with
        | .error m => "Unexpected error: " ++ m
        | .ok results =>
          if results.data.isEmpty then
            "No certification projects found matching the specified criteria."
          else
            String.intercalate "\n"
              (["Found " ++ toString results.total ++ " certification projects (showing "
                  ++ toString results.data.length ++ "):", ""]
               ++ (results.data.map fun project =>
                     ["• " ++ format_project_summary project]
                     ++ (match project.short_description with
                         | some d => if d == "" then [] else ["  " ++ d]
                         | none => [])
                     ++ [""]).flatten
               ++ (if results.has_more then
                     ["... and " ++ toString (results.total - (results.data.length : Int))
                        ++ " more results available"]
                   else []))
    | other => "Unexpected error: " ++ attrGetError other

/-- One-decimal rendering of `sum_layer_size_bytes / (1024*1024)`
(`f"{size_mb:.1f}"`), computed on the exact rational with half-even
rounding; the double-precision detour of the source is not reproduced. -/
def formatSizeMB (bytes : Int) : String :=
  let scaled := bytes * 10
  let q := scaled / 1048576
  let r := scaled % 1048576
  let rounded :=
    if 1048576 < r * 2 then q + 1
    else if r * 2 = 1048576 then (if q % 2 = 0 then q else q + 1)
    else q
  toString (rounded / 10) ++ "." ++ toString (rounded % 10)

/-- The detail view built by `get_image_details` for a parsed image. -/
def formatImageDetails (image : ContainerImage) : String :=
  let repoLines :=
    match image.repositories with
    | some rlist =>
      if rlist.isEmpty then []
      else
        "Repositories:" ::
        (rlist.map fun repo =>
          match repo.registry, repo.repository with
          | some reg, some rep =>
            if reg == "" || rep == "" then []
            else
              ("  • " ++ reg ++ "/" ++ rep) ::
              (match repo.tags with
               | some tags =>
                 if tags.isEmpty then []
                 else
                   ("    Tags: " ++ String.intercalate ", " (tags.take 5)) ::
                   (if 5 < tags.length then
                      ["    ... and " ++ toString (tags.length - 5) ++ " more tags"]
                    else [])
               | none => [])
          | _, _ => []).flatten
    | none => []
  let archText := pyOr image.architecture "Unknown"
  let certText := if image.certified = some true then "Yes" else "No"
  String.intercalate "\n"
    (["Container Image Details: " ++ image.id, String.mk (List.replicate 50 '=')]
     ++ repoLines
     ++ ["", "Architecture: " ++ archText, "Certified: " ++ certText]
     ++ (match image.creation_date with
         | some d => if d == "" then [] else ["Created: " ++ d]
         | none => [])
     ++ (match image.last_update_date with
         | some d => if d == "" then [] else ["Last Updated: " ++ d]
         | none => [])
     ++ (match image.sum_layer_size_bytes with
         | some n => if n = 0 then [] else ["Size: " ++ formatSizeMB n ++ " MB"]
         | none => [])
     ++ (match image.docker_image_digest with
         | some d => if d == "" then [] else ["Digest: " ++ d]
         | none => [])
     ++ (match image.cpe_ids with
         | some l =>
           if l.isEmpty then []
           else
             ("CPE IDs: " ++ String.intercalate ", " (l.take 3)) ::
             (if 3 < l.length then
                ["... and " ++ toString (l.length - 3) ++ " more"]
              else [])
         | none => [])
     ++ (match image.content_sets with
         | some l => if l.isEmpty then []
             else ["Content Sets: " ++ toString l.length ++ " available"]
         | none => [])
     ++ (match image.freshness_grades with
         | some l => if l.isEmpty then []
             else ["Freshness Grades: " ++ toString l.length ++ " available"]
         | none => []))

/-- The `get_image_details` tool. -/
def get_image_details_tool (image_id : String)
    (outcome : Except RaisedError JsonVal) : String :=
  if pyStrip image_id == "" then "Error: image_id is required"
  else
    match outcome with
    | .error e => toolError "Error getting image details: " e
    | .ok response =>
      match parseContainerImage response with
      | .error m => "Unexpected error: " ++ m
      | .ok image => formatImageDetails image

/-!  ## server.py: vulnerability grouping and the vulnerabilities tool  -/

/-- `vuln.severity or "Unknown"`: the literal severity key a
vulnerability is grouped under. -/
def effSeverity (v : Vulnerability) : String := pyOr v.severity "Unknown"

/-- One insertion into the `severity_groups` dict (`if severity not in
severity_groups: ... = []` then `append`); the association list keeps
the dict's insertion order. -/
def addVulnToGroups : List (String × List Vulnerability) → String → Vulnerability →
    List (String × List Vulnerability)
  | [], sev, v => [(sev, [v])]
  | (k, g) :: rest, sev, v =>
    if k == sev then (k, g ++ [v]) :: rest
    else (k, g) :: addVulnToGroups rest sev v

/-- The `severity_groups` dict after the grouping loop. -/
def buildSeverityGroups (vulns : List Vulnerability) : List (String × List Vulnerability) :=
  vulns.foldl (fun gs v => addVulnToGroups gs (effSeverity v) v) []

/-- Dict membership/lookup on the grouped severities. -/
def groupFind : List (String × List Vulnerability) → String → Option (List Vulnerability)
  | [], _ => none
  | (k, g) :: rest, sev => if k == sev then some g else groupFind rest sev

/-- The fixed display order of severities. -/
def severityOrder : List String := ["Critical", "High", "Medium", "Low", "Unknown"]

/-- One bullet of the vulnerability listing. -/
def vulnBullet (v : Vulnerability) : String :=
  "  • " ++ format_vulnerability_summary v

/-- The lines emitted for one severity of the display loop: header,
first 10 bullets, remainder count, blank separator — nothing when the
severity is not a key of the groups. -/
def severityBlock (groups : List (String × List Vulnerability)) (severity : String) :
    List String :=
  match groupFind groups severity with
  | none => []
  | some g =>
    [severity ++ " Severity (" ++ toString g.length ++ "):"]
    ++ (g.take 10).map vulnBullet
    ++ (if 10 < g.length then
          ["  ... and " ++ toString (g.length - 10) ++ " more "
             ++ severity.toLower ++ " vulnerabilities"]
        else [])
    ++ [""]

/-- The grouped portion of the vulnerability listing. -/
def vulnerabilityGroupLines (vulns : List Vulnerability) : List String :=
  (severityOrder.map (severityBlock (buildSeverityGroups vulns))).flatten

/-- The declarative characterisation of one severity's display block,
phrased on the plain input list (the claim's reading): the group is the
subsequence of matching vulnerabilities, at most 10 are shown, a
remainder line appears exactly when the group is larger. -/
def severityBlockSpec (vulns : List Vulnerability) (severity : String) : List String :=
  let g := vulns.filter fun v => effSeverity v == severity
  if g.isEmpty then []
  else
    [severity ++ " Severity (" ++ toString g.length ++ "):"]
    ++ (g.take 10).map vulnBullet
    ++ (if 10 < g.length then
          ["  ... and " ++ toString (g.length - 10) ++ " more "
             ++ severity.toLower ++ " vulnerabilities"]
        else [])
    ++ [""]

/-- The `get_image_vulnerabilities` tool. -/
def get_image_vulnerabilities_tool (image_id : String) (max_results : Int)
    (outcome : Except RaisedError JsonVal) : String :=
  if pyStrip image_id == "" then "Error: image_id is required"
  else
    let maxr := clampResults max_results
    match outcome with
    | .error e => toolError "Error getting vulnerabilities: " e
    | .ok response =>
      match response with
      | .obj fs =>
        if !dataTruthy fs then
          "No vulnerabilities found for image " ++ image_id
        else
          match parseVulnerabilitySearchResults (.obj fs) with
          | .error m => "Unexpected error: " ++ m
          | .ok results =>
            if results.data.isEmpty then
              "No vulnerabilities found for image " ++ image_id
            else
              let vulns := results.data.take maxr.toNat
              String.intercalate "\n"
                (["Security Vulnerabilities for Image " ++ image_id,
                  String.mk (List.replicate 60 '='),
                  "Found " ++ toString results.total ++ " vulnerabilities (showing "
                    ++ toString vulns.length ++ "):", ""]
                 ++ vulnerabilityGroupLines vulns
                 ++ (if maxr < results.total then
                       ["... and " ++ toString (results.total - maxr)
                          ++ " more vulnerabilities available"]
                     else []))
      | other => "Unexpected error: " ++ attrGetError other

/-!  ## Concrete inputs and specification-side helpers used by the
theorems below  -/

/-- A repository record carrying no fields at all. -/
def bareRepo : Repository := {}

/-- An image with four repositories, none of which has both a registry
and a repository name. -/
def imgFourBareRepos : ContainerImage :=
  { id := "sha256:bare"
    repositories := some [bareRepo, bareRepo, bareRepo, bareRepo] }

def repoFull1 : Repository := { registry := some "reg1", repository := some "r1" }

def repoFull2 : Repository := { registry := some "reg2", repository := some "r2" }

def repoFull3 : Repository := { registry := some "reg3", repository := some "r3" }

def repoFull4 : Repository := { registry := some "reg4", repository := some "r4" }

/-- An image with four complete repositories, a known architecture and
a positive certification flag. -/
def imgFourFullRepos : ContainerImage :=
  { id := "sha256:full"
    architecture := some "amd64"
    certified := some true
    repositories := some [repoFull1, repoFull2, repoFull3, repoFull4] }

/-- How one severity's final group relates to a prior dict state: an
existing group is extended, a fresh nonempty one is created. -/
def combineG (base : Option (List Vulnerability)) (f : List Vulnerability) :
    Option (List Vulnerability) :=
  match base with
  | some g => some (g ++ f)
  | none => if f.isEmpty then none else some f

/-- The four vulnerabilities of the specification's ordering example,
with severities High, Critical, Low, Critical in input order. -/
def vHigh : Vulnerability := { cve := some "CVE-1", severity := some "High" }

def vCrit1 : Vulnerability := { cve := some "CVE-2", severity := some "Critical" }

def vLow : Vulnerability := { cve := some "CVE-3", severity := some "Low" }

def vCrit2 : Vulnerability := { cve := some "CVE-4", severity := some "Critical" }

/-!  ## Helper lemmas  -/

@[simp]
lemma lookupParam_nil (key : String) : lookupParam [] key = none := rfl

@[simp]
lemma lookupParam_cons_eq (k : String) (v : JsonVal) (rest : List (String × JsonVal)) :
    lookupParam ((k, v) :: rest) k = some v := by
  simp [lookupParam]

@[simp]
lemma lookupParam_cons_ne (k key : String) (v : JsonVal) (rest : List (String × JsonVal))
    (h : (k == key) = false) :
    lookupParam ((k, v) :: rest) key = lookupParam rest key := by
  simp [lookupParam, h]

@[simp]
lemma lookupParam_guarded_ne (k key : String) (b : Bool) (v : JsonVal)
    (rest : List (String × JsonVal)) (h : (k == key) = false) :
    lookupParam (guardedParam b k v ++ rest) key = lookupParam rest key := by
  cases b <;> simp [guardedParam, lookupParam, h]

@[simp]
lemma lookupParam_guarded_ne_last (k key : String) (b : Bool) (v : JsonVal)
    (h : (k == key) = false) :
    lookupParam (guardedParam b k v) key = none := by
  cases b <;> simp [guardedParam, lookupParam, h]

@[simp]
lemma lookupParam_guarded_false (k key : String) (v : JsonVal)
    (rest : List (String × JsonVal)) :
    lookupParam (guardedParam false k v ++ rest) key = lookupParam rest key := by
  simp [guardedParam]

@[simp]
lemma lookupParam_guarded_false_last (k key : String) (v : JsonVal) :
    lookupParam (guardedParam false k v) key = none := by
  simp [guardedParam, lookupParam]

lemma effective_min_clamp (m : Int) : min (clampResults m) 100 = effectivePageSize m := by
  simp only [clampResults, effectivePageSize, min_def, max_def]
  split_ifs <;> omega

lemma strip_of_all_space (q : String) (h : q.toList.all isPySpace = true) :
    pyStrip q = "" := by
  have h1 : q.toList.dropWhile isPySpace = [] := by
    rw [List.dropWhile_eq_nil_iff]
    intro x hx
    exact List.all_eq_true.mp h x hx
  unfold pyStrip
  rw [h1]
  rfl

lemma whitespace_query_not_truthy (q : String) (h : q.toList.all isPySpace = true) :
    optStrTruthy (pyOptStrip q) = false := by
  unfold pyOptStrip
  by_cases hq : q == ""
  · simp [hq, optStrTruthy]
  · simp only [hq, if_false, Bool.false_eq_true]
    simp [optStrTruthy, strip_of_all_space q h]

/-!  ## Claim C3  -/

/-- C3 (confirmed): for every result envelope with page `p`, page size
`s` and total match count `t`, the `has_more` property is true iff
`(p+1)*s < t` — for each of the five envelope classes of `models.py`. -/
theorem claim_C3 (r1 : SearchResults) (r2 : ImageSearchResults)
    (r3 : ProjectSearchResults) (r4 : OperatorSearchResults)
    (r5 : VulnerabilitySearchResults) :
    (r1.has_more = true ↔ (r1.page + 1) * r1.page_size < r1.total)
    ∧ (r2.has_more = true ↔ (r2.page + 1) * r2.page_size < r2.total)
    ∧ (r3.has_more = true ↔ (r3.page + 1) * r3.page_size < r3.total)
    ∧ (r4.has_more = true ↔ (r4.page + 1) * r4.page_size < r4.total)
    ∧ (r5.has_more = true ↔ (r5.page + 1) * r5.page_size < r5.total) := by
  refine ⟨?_, ?_, ?_, ?_, ?_⟩ <;>
    simp [SearchResults.has_more, ImageSearchResults.has_more,
      ProjectSearchResults.has_more, OperatorSearchResults.has_more,
      VulnerabilitySearchResults.has_more]

/-!  ## Claim C4  -/

/-- C4 (confirmed): for every search operation and every requested
page size, the effective `page_size` sent to the backend is 100 when the
request exceeds 100, 1 when it is below 1, and the request itself
otherwise — the out-of-range value is silently clamped (the parameter is
always present, never rejected). -/
theorem claim_C4 (q a r st pkg regi : String) (c : Bool) (m : Int) :
    lookupParam (searchImagesParams q a r c m) "page_size"
      = some (.num (effectivePageSize m))
    ∧ lookupParam (searchProjectsParams q st m) "page_size"
      = some (.num (effectivePageSize m))
    ∧ lookupParam (searchOperatorsParams q pkg m) "page_size"
      = some (.num (effectivePageSize m))
    ∧ lookupParam (searchRepositoriesParams q regi m) "page_size"
      = some (.num (effectivePageSize m)) := by
  refine ⟨?_, ?_, ?_, ?_⟩ <;>
    simp [searchImagesParams, searchProjectsParams, searchOperatorsParams,
      searchRepositoriesParams, clientSearchImagesParams, clientSearchProjectsParams,
      clientSearchOperatorsParams, clientSearchRepositoriesParams,
      effective_min_clamp]

/-!  ## Claim C5  -/

/-- C5 (confirmed): for every search operation invocation whose
free-text query argument is empty or whitespace-only, no `filter`
expression is present among the request parameters sent to the
backend. -/
theorem claim_C5 (q a r st pkg regi : String) (c : Bool) (m : Int)
    (h : q.toList.all isPySpace = true) :
    lookupParam (searchImagesParams q a r c m) "filter" = none
    ∧ lookupParam (searchProjectsParams q st m) "filter" = none
    ∧ lookupParam (searchOperatorsParams q pkg m) "filter" = none
    ∧ lookupParam (searchRepositoriesParams q regi m) "filter" = none := by
  have hq := whitespace_query_not_truthy q h
  refine ⟨?_, ?_, ?_, ?_⟩
  · cases hc : (if c then some true else none : Option Bool) <;>
      simp [searchImagesParams, clientSearchImagesParams, hq, hc]
  · simp [searchProjectsParams, clientSearchProjectsParams, hq]
  · simp [searchOperatorsParams, clientSearchOperatorsParams, hq]
  · simp [searchRepositoriesParams, clientSearchRepositoriesParams, hq]

/-- C5 witness: a whitespace-only query on concrete arguments. -/
theorem claim_C5_witness :
    lookupParam (searchImagesParams "  \t " "amd64" "" true 20) "filter" = none := by
  exact (claim_C5 "  \t " "amd64" "" "" "" "" true 20 (by decide)).1

/-!  ## Claim C10  -/

/-!  ## Claim C2  -/

/-- C2 (confirmed): every tool-level operation always returns a text
string (the embedding is a total `String`-valued function) and never
raises past its boundary; each error of the known taxonomy is converted
to a one-line, category-prefixed error string, and any error outside the
known taxonomy is rendered as `Unexpected error: <message>` — shown for
the four fully embedded tools, plus the two conversion equations of the
shared boundary handler. -/
theorem claim_C2 (imgid : String) (maxr : Int) (e : RaisedError) :
    search_images_tool (.error e) = toolError "Error searching images: " e
    ∧ search_certification_projects_tool (.error e)
        = toolError "Error searching certification projects: " e
    ∧ ((pyStrip imgid == "") = false →
        get_image_details_tool imgid (.error e)
          = toolError "Error getting image details: " e)
    ∧ ((pyStrip imgid == "") = false →
        get_image_vulnerabilities_tool imgid maxr (.error e)
          = toolError "Error getting vulnerabilities: " e)
    ∧ (∀ pre m, toolError pre (.other m) = "Unexpected error: " ++ m)
    ∧ (∀ pre pe, toolError pre (.pyxis pe) = pre ++ pe.message) := by
  refine ⟨rfl, rfl, ?_, ?_, fun pre m => rfl, fun pre pe => rfl⟩
  · intro h
    simp [get_image_details_tool, h]
  · intro h
    simp [get_image_vulnerabilities_tool, h]

/-- C2 witness: the catch-all path of `get_image_details` on a concrete
non-taxonomy error. -/
theorem claim_C2_witness :
    get_image_details_tool "img-1" (.error (.other "boom")) = "Unexpected error: boom" := by
  have h := (claim_C2 "img-1" 50 (.other "boom")).2.2.1 (by decide)
  exact h.trans (by decide)

/-!  ## Claim C8  -/

/-- C8 (confirmed): for every search operation whose backend response
carries an empty `data` list, the returned text is exactly the single
fixed sentence `No <kind> found matching the specified criteria.` — no
header line, no bullets, no trailing more-results footer. -/
theorem claim_C8 (fs : List (String × JsonVal))
    (h : jsonField fs "data" = some (.arr [])) :
    search_images_tool (.ok (.obj fs))
      = "No images found matching the specified criteria."
    ∧ search_certification_projects_tool (.ok (.obj fs))
      = "No certification projects found matching the specified criteria." := by
  have hd : dataTruthy fs = false := by
    simp [dataTruthy, h, pyTruthy]
  constructor <;>
    simp [search_images_tool, search_certification_projects_tool, hd]

/-- C8 witness: a concrete empty response. -/
theorem claim_C8_witness :
    search_images_tool (.ok (.obj [("data", .arr []), ("total", .num 0)]))
      = "No images found matching the specified criteria." :=
  (claim_C8 [("data", .arr []), ("total", .num 0)] rfl).1

/-!  ## Claim C7  -/

/-- C7 counterexample: the claim says every image with more than 3
repositories gets a `+N more` suffix (and a 4-repository image shows
exactly 3 pairs); this image has 4 repositories, yet its summary shows
no pair and no suffix, because none of its first 3 repositories carries
both a registry and a repository name. -/
theorem claim_C7_counterexample :
    imgFourBareRepos.repositories.map List.length = some 4
    ∧ format_image_summary imgFourBareRepos = "sha256:bare - ⚠ Not Certified"
    ∧ strContains (format_image_summary imgFourBareRepos) "+1 more" = false := by
  refine ⟨rfl, rfl, ?_⟩
  decide

/-- C7 (corrected): the one-line summary shows the image identity, then
the complete `registry/repository` pairs among the first 3 repositories
(hence at most 3 pairs), a `+N more` suffix only when the image has
more than 3 repositories AND at least one pair was shown, the
architecture in brackets when known, and a certified/not-certified
marker; in particular an image with 4 repositories whose first 3 each
carry both fields shows exactly 3 pairs and appends `+1 more`. -/
theorem claim_C7_amended (image : ContainerImage) (rlist : List Repository) :
    (repoPairStrs rlist).length ≤ 3
    ∧ (repoPairStrs rlist = [] → reposPart (some rlist) = "")
    ∧ (repoPairStrs rlist ≠ [] → 3 < rlist.length →
        reposPart (some rlist)
          = (" (" ++ String.intercalate ", " (repoPairStrs rlist) ++ ")")
            ++ " +" ++ toString (rlist.length - 3) ++ " more")
    ∧ (repoPairStrs rlist ≠ [] → rlist.length ≤ 3 →
        reposPart (some rlist)
          = " (" ++ String.intercalate ", " (repoPairStrs rlist) ++ ")")
    ∧ format_image_summary image
        = image.id ++ reposPart image.repositories ++ archPart image.architecture
          ++ " - " ++ certifiedPart image.certified
    ∧ format_image_summary imgFourFullRepos
        = "sha256:full (reg1/r1, reg2/r2, reg3/r3) +1 more [amd64] - ✓ Certified" := by
  refine ⟨?_, ?_, ?_, ?_, rfl, by decide⟩
  · calc (repoPairStrs rlist).length
        ≤ (rlist.take 3).length := List.length_filterMap_le _ _
      _ ≤ 3 := List.length_take_le 3 rlist
  · intro h
    by_cases he : rlist.isEmpty <;> simp [reposPart, he, h]
  · intro h1 h2
    have he : rlist.isEmpty = false := by
      cases rlist with
      | nil => simp at h2
      | cons x xs => rfl
    simp [reposPart, he, h1, h2]
  · intro h1 h2
    have he : rlist.isEmpty = false := by
      cases rlist with
      | nil => exact absurd rfl h1
      | cons x xs => rfl
    have h3 : ¬ (3 < rlist.length) := by omega
    simp [reposPart, he, h1, h3]

/-- C7 witness: the suffix branch of the amended statement at the
concrete 4-repository image, and the no-pair branch at the bare one. -/
theorem claim_C7_witness :
    reposPart (some [repoFull1, repoFull2, repoFull3, repoFull4])
      = (" (" ++ String.intercalate ", " (repoPairStrs
          [repoFull1, repoFull2, repoFull3, repoFull4]) ++ ")")
        ++ " +" ++ toString ([repoFull1, repoFull2, repoFull3, repoFull4].length - 3)
        ++ " more"
    ∧ reposPart (some [bareRepo, bareRepo, bareRepo, bareRepo]) = "" := by
  constructor
  · exact (claim_C7_amended imgFourFullRepos
      [repoFull1, repoFull2, repoFull3, repoFull4]).2.2.1 (by decide) (by decide)
  · exact (claim_C7_amended imgFourBareRepos
      [bareRepo, bareRepo, bareRepo, bareRepo]).2.1 (by decide)

/-- C10 (confirmed): at the `search_images` tool boundary, the boolean
`certified` argument adds a `certified` filter to the backend request
parameters only when it is `True`; when it is `False` (its default) the
filter is omitted entirely, so a `False` value is indistinguishable from
an unspecified one and a caller can never restrict the search to
non-certified images (the parameter is never sent with value `False`). -/
theorem claim_C10 (q a r : String) (c : Bool) (m : Int) :
    lookupParam (searchImagesParams q a r c m) "certified"
      = (if c then some (.bool true) else none) := by
  cases c <;> simp [searchImagesParams, clientSearchImagesParams]

/-!  ## Claim C6  -/

lemma groupFind_addVuln (gs : List (String × List Vulnerability)) (k sev : String)
    (v : Vulnerability) :
    groupFind (addVulnToGroups gs k v) sev
      = if k == sev then some (((groupFind gs sev).getD []) ++ [v])
        else groupFind gs sev := by
  induction gs with
  | nil =>
    by_cases h : k == sev <;> simp [addVulnToGroups, groupFind, h]
  | cons p rest ih =>
    obtain ⟨k', g'⟩ := p
    by_cases h1 : k' == k
    · have hk : k' = k := eq_of_beq h1
      subst hk
      by_cases h2 : k' == sev
      · have hs : k' = sev := eq_of_beq h2
        subst hs
        simp [addVulnToGroups, groupFind, h1]
      · rw [Bool.not_eq_true] at h2
        simp [addVulnToGroups, groupFind, h1, h2]
    · rw [Bool.not_eq_true] at h1
      by_cases h2 : k' == sev
      · have hs : k' = sev := eq_of_beq h2
        subst hs
        have h3 : (k == k') = false := by
          rw [beq_eq_false_iff_ne] at h1 ⊢
          exact fun he => h1 he.symm
        simp [addVulnToGroups, groupFind, h1, h2, h3]
      · rw [Bool.not_eq_true] at h2
        simp [addVulnToGroups, groupFind, h1, h2, ih]

lemma groupFind_foldl (vulns : List Vulnerability) :
    ∀ (gs : List (String × List Vulnerability)) (sev : String),
      groupFind (List.foldl (fun a v => addVulnToGroups a (effSeverity v) v) gs vulns) sev
        = combineG (groupFind gs sev) (vulns.filter fun v => effSeverity v == sev) := by
  induction vulns with
  | nil =>
    intro gs sev
    cases hb : groupFind gs sev <;> simp [combineG, hb]
  | cons v vs ih =>
    intro gs sev
    simp only [List.foldl_cons, List.filter_cons]
    rw [ih]
    rw [groupFind_addVuln]
    by_cases h : effSeverity v == sev
    · simp only [h, if_true]
      cases hb : groupFind gs sev <;> simp [combineG, hb]
    · rw [Bool.not_eq_true] at h
      simp [h]

lemma severityBlock_eq_spec (vulns : List Vulnerability) (sev : String) :
    severityBlock (buildSeverityGroups vulns) sev = severityBlockSpec vulns sev := by
  unfold severityBlock severityBlockSpec buildSeverityGroups
  rw [groupFind_foldl]
  by_cases he : (vulns.filter fun v => effSeverity v == sev).isEmpty
  · simp [combineG, groupFind, he]
  · simp [combineG, groupFind, he]

lemma vulnLines_eq_spec (vulns : List Vulnerability) :
    vulnerabilityGroupLines vulns = (severityOrder.map (severityBlockSpec vulns)).flatten := by
  unfold vulnerabilityGroupLines
  have h : severityBlock (buildSeverityGroups vulns) = severityBlockSpec vulns :=
    funext (severityBlock_eq_spec vulns)
  rw [h]

lemma filter_recognized (vulns : List Vulnerability) (sev : String)
    (h : severityOrder.contains sev = true) :
    (vulns.filter fun v => severityOrder.contains (effSeverity v)).filter
        (fun v => effSeverity v == sev)
      = vulns.filter fun v => effSeverity v == sev := by
  induction vulns with
  | nil => rfl
  | cons v vs ih =>
    rw [List.filter_cons]
    by_cases hc : severityOrder.contains (effSeverity v) = true
    · rw [if_pos hc, List.filter_cons, List.filter_cons, ih]
    · rw [if_neg hc, ih, List.filter_cons]
      have hv : ¬ (effSeverity v == sev) = true := by
        intro hv
        exact hc (by rw [eq_of_beq hv]; exact h)
      rw [if_neg hv]

lemma blockSpec_filter_recognized (vulns : List Vulnerability) (sev : String)
    (h : severityOrder.contains sev = true) :
    severityBlockSpec (vulns.filter fun v => severityOrder.contains (effSeverity v)) sev
      = severityBlockSpec vulns sev := by
  unfold severityBlockSpec
  rw [filter_recognized vulns sev h]

/-- C6 (confirmed): vulnerability entries are grouped by their literal
severity string (an absent severity under `Unknown`); only the five
labels Critical, High, Medium, Low, Unknown are iterated for display, in
that fixed order, so a group keyed by any other literal severity string
is silently never printed (the rendering is unchanged by dropping such
entries); each displayed group equals its declarative characterisation —
header with group size, at most the first 10 entries, a remainder count
exactly when the group is larger; and the specification's concrete
ordering example renders Critical items (both) before High before Low. -/
theorem claim_C6 (vulns : List Vulnerability) :
    vulnerabilityGroupLines vulns
      = vulnerabilityGroupLines (vulns.filter fun v => severityOrder.contains (effSeverity v))
    ∧ vulnerabilityGroupLines vulns = (severityOrder.map (severityBlockSpec vulns)).flatten
    ∧ vulnerabilityGroupLines [vHigh, vCrit1, vLow, vCrit2]
      = ["Critical Severity (2):", "  • CVE-2 - Critical", "  • CVE-4 - Critical", "",
         "High Severity (1):", "  • CVE-1 - High", "",
         "Low Severity (1):", "  • CVE-3 - Low", ""] := by
  refine ⟨?_, vulnLines_eq_spec vulns, by decide⟩
  rw [vulnLines_eq_spec, vulnLines_eq_spec]
  have hpt : ∀ sev ∈ severityOrder,
      severityBlockSpec vulns sev
        = severityBlockSpec (vulns.filter fun v => severityOrder.contains (effSeverity v)) sev := by
    intro sev hs
    fin_cases hs <;> exact (blockSpec_filter_recognized vulns _ (by decide)).symm
  exact congrArg List.flatten (List.map_congr_left hpt)

/-!  ## Claim C1  -/

/-- C1 counterexample: the claim says any status ≥ 400 whose body lacks
a JSON `detail`/`message` field yields a message containing the raw body
text; but on a 500 response whose body is valid JSON with neither field,
the code produces exactly `Request failed with status 500`, which does
not contain the raw body text. -/
theorem claim_C1_counterexample :
    makeRequest "https://catalog.redhat.com/api/containers/v1/images" "30.0"
        (.completed c1Resp)
      = .error (.apiError "Request failed with status 500")
    ∧ strContains "Request failed with status 500" c1Resp.text = false := by
  constructor
  · rfl
  · decide

/-- C1 (corrected): the low-level request primitive classifies outcomes
as follows — a timeout yields a ConnectionError carrying the URL and the
configured timeout duration; a connection failure yields a
ConnectionError carrying the URL; HTTP 401 yields an AuthError; any
other status ≥ 400 yields a generic APIError whose message carries the
status code followed by: the `detail` field text (else the `message`
field text) when the body parses as a JSON object carrying that field;
the raw body text when the body fails to parse as JSON, or parses to a
number, boolean or null (the field-membership probe raises TypeError),
or parses to a string or array on which the `detail` — else `message` —
membership probe succeeds (the subscript then raises TypeError); and
nothing at all otherwise — in particular a JSON object with neither
field, or a string/array on which both membership probes fail, appends
nothing beyond the status code; a success response whose body is not
valid JSON yields an APIError wrapping the parse failure; any other
success returns the parsed JSON unchanged. -/
theorem claim_C1_amended :
    (∀ url t, makeRequest url t .timeout
      = .error (.connectionError
          ("Request to " ++ url ++ " timed out after " ++ t ++ "s")))
    ∧ (∀ url t, makeRequest url t .connectError
      = .error (.connectionError ("Failed to connect to " ++ url)))
    ∧ (∀ url t resp, resp.status_code = 401 →
        makeRequest url t (.completed resp)
          = .error (.authError "Authentication failed. Check your API key."))
    ∧ (∀ url t resp, resp.status_code ≠ 401 → 400 ≤ resp.status_code →
        makeRequest url t (.completed resp)
          = .error (.apiError ("Request failed with status "
              ++ toString resp.status_code
              ++ requestErrorSuffix resp.jsonBody resp.text)))
    ∧ (∀ text, requestErrorSuffix none text = ": " ++ text)
    ∧ (∀ fsv text val, jsonField fsv "detail" = some val →
        requestErrorSuffix (some (.obj fsv)) text = ": " ++ pyStr val)
    ∧ (∀ fsv text val, jsonField fsv "detail" = none →
        jsonField fsv "message" = some val →
        requestErrorSuffix (some (.obj fsv)) text = ": " ++ pyStr val)
    ∧ (∀ fsv text, jsonField fsv "detail" = none →
        jsonField fsv "message" = none →
        requestErrorSuffix (some (.obj fsv)) text = "")
    ∧ (∀ n text, requestErrorSuffix (some (.num n)) text = ": " ++ text)
    ∧ (∀ b text, requestErrorSuffix (some (.bool b)) text = ": " ++ text)
    ∧ (∀ text, requestErrorSuffix (some .null) text = ": " ++ text)
    ∧ (∀ s text, strContains s "detail" = true →
        requestErrorSuffix (some (.str s)) text = ": " ++ text)
    ∧ (∀ s text, strContains s "detail" = false → strContains s "message" = true →
        requestErrorSuffix (some (.str s)) text = ": " ++ text)
    ∧ (∀ s text, strContains s "detail" = false → strContains s "message" = false →
        requestErrorSuffix (some (.str s)) text = "")
    ∧ (∀ xs text, pyListHasStr xs "detail" = true →
        requestErrorSuffix (some (.arr xs)) text = ": " ++ text)
    ∧ (∀ xs text, pyListHasStr xs "detail" = false → pyListHasStr xs "message" = true →
        requestErrorSuffix (some (.arr xs)) text = ": " ++ text)
    ∧ (∀ xs text, pyListHasStr xs "detail" = false → pyListHasStr xs "message" = false →
        requestErrorSuffix (some (.arr xs)) text = "")
    ∧ (∀ url t resp, resp.status_code < 400 → resp.jsonBody = none →
        makeRequest url t (.completed resp)
          = .error (.apiError ("Failed to parse JSON response: " ++ resp.jsonErrorText)))
    ∧ (∀ url t resp j, resp.status_code < 400 → resp.jsonBody = some j →
        makeRequest url t (.completed resp) = .ok j) := by
  refine ⟨fun url t => rfl, fun url t => rfl, ?_, ?_, fun text => rfl, ?_, ?_, ?_,
    fun n text => rfl, fun b text => rfl, fun text => rfl, ?_, ?_, ?_, ?_, ?_, ?_, ?_, ?_⟩
  · intro url t resp h
    simp [makeRequest, h]
  · intro url t resp h1 h2
    simp [makeRequest, h1, h2]
  · intro fsv text val hd
    simp [requestErrorSuffix, pyContains, pySubscript, hd]
  · intro fsv text val hd hm
    simp [requestErrorSuffix, pyContains, pySubscript, hd, hm]
  · intro fsv text hd hm
    simp [requestErrorSuffix, pyContains, pySubscript, hd, hm]
  · intro s text h
    simp [requestErrorSuffix, pyContains, pySubscript, h]
  · intro s text h1 h2
    simp [requestErrorSuffix, pyContains, pySubscript, h1, h2]
  · intro s text h1 h2
    simp [requestErrorSuffix, pyContains, pySubscript, h1, h2]
  · intro xs text h
    rw [pyListHasStr] at h
    simp [requestErrorSuffix, pyContains, pySubscript, h]
  · intro xs text h1 h2
    rw [pyListHasStr] at h1 h2
    simp [requestErrorSuffix, pyContains, pySubscript, h1, h2]
  · intro xs text h1 h2
    rw [pyListHasStr] at h1 h2
    simp [requestErrorSuffix, pyContains, pySubscript, h1, h2]
  · intro url t resp h1 hb
    have h2 : ¬ resp.status_code = 401 := by omega
    have h3 : ¬ 400 ≤ resp.status_code := by omega
    simp [makeRequest, h2, h3, hb]
  · intro url t resp j h1 hb
    have h2 : ¬ resp.status_code = 401 := by omega
    have h3 : ¬ 400 ≤ resp.status_code := by omega
    simp [makeRequest, h2, h3, hb]

/-- C1 witness: the specification example — status 500 with body
`{"detail": "boom"}` yields a message containing `500` and `boom` — and
the TypeError fallback: a 500 response whose body parses to the JSON
number 5 appends the raw body text. -/
theorem claim_C1_witness :
    makeRequest "https://catalog.redhat.com/api/containers/v1/images" "30.0"
        (.completed { status_code := 500
                      jsonBody := some (.obj [("detail", .str "boom")])
                      text := "\x7b\"detail\": \"boom\"\x7d" })
      = .error (.apiError "Request failed with status 500: boom")
    ∧ makeRequest "https://catalog.redhat.com/api/containers/v1/images" "30.0"
        (.completed { status_code := 500
                      jsonBody := some (.num 5)
                      text := "5" })
      = .error (.apiError "Request failed with status 500: 5")
    ∧ requestErrorSuffix (some (.num 5)) "5" = ": " ++ "5"
    ∧ strContains "Request failed with status 500: boom" "500" = true
    ∧ strContains "Request failed with status 500: boom" "boom" = true := by
  obtain ⟨-, -, -, h4, -, h6, -, -, h9, -⟩ := claim_C1_amended
  refine ⟨?_, ?_, h9 5 "5", by decide, by decide⟩
  · have h := h4 "https://catalog.redhat.com/api/containers/v1/images" "30.0"
      { status_code := 500
        jsonBody := some (.obj [("detail", .str "boom")])
        text := "\x7b\"detail\": \"boom\"\x7d" } (by decide) (by decide)
    exact h.trans
      (congrArg (fun s => Except.error (PyxisError.apiError s)) (by decide))
  · have h := h4 "https://catalog.redhat.com/api/containers/v1/images" "30.0"
      { status_code := 500
        jsonBody := some (.num 5)
        text := "5" } (by decide) (by decide)
    exact h.trans
      (congrArg (fun s => Except.error (PyxisError.apiError s)) (by decide))

/-!  ## Claim C9  -/

lemma parseContainerImage_missing_id (fs : List (String × JsonVal))
    (h1 : jsonField fs "_id" = none) (h2 : jsonField fs "id" = none) :
    parseContainerImage (.obj fs) = .error (missingIdError "ContainerImage") := by
  have hid : getRequiredId "ContainerImage" fs = .error (missingIdError "ContainerImage") := by
    unfold getRequiredId
    rw [h1, h2]
  simp only [parseContainerImage]
  rw [hid]
  rfl

lemma parseCertificationProject_missing_id (fs : List (String × JsonVal))
    (h1 : jsonField fs "_id" = none) (h2 : jsonField fs "id" = none) :
    parseCertificationProject (.obj fs) = .error (missingIdError "CertificationProject") := by
  have hid : getRequiredId "CertificationProject" fs
      = .error (missingIdError "CertificationProject") := by
    unfold getRequiredId
    rw [h1, h2]
  simp only [parseCertificationProject]
  rw [hid]
  rfl

lemma parseOperatorBundle_missing_id (fs : List (String × JsonVal))
    (h1 : jsonField fs "_id" = none) (h2 : jsonField fs "id" = none) :
    parseOperatorBundle (.obj fs) = .error (missingIdError "OperatorBundle") := by
  have hid : getRequiredId "OperatorBundle" fs = .error (missingIdError "OperatorBundle") := by
    unfold getRequiredId
    rw [h1, h2]
  simp only [parseOperatorBundle]
  rw [hid]
  rfl

/-- C9 (confirmed): constructing each identity-bearing domain entity
from a JSON object holding only `_id` succeeds with every optional field
absent; constructing one from a payload carrying neither `_id` nor `id`
fails with a ValidationError — which is not one of the transport errors,
so the caller's PyxisError handler does not see it — and the calling
operation surfaces it as the user-visible `Unexpected error: <message>`
string rather than crashing. -/
theorem claim_C9 :
    parseContainerImage (.obj [("_id", .str "img-1")]) = .ok { id := "img-1" }
    ∧ parseCertificationProject (.obj [("_id", .str "proj-1")]) = .ok { id := "proj-1" }
    ∧ parseOperatorBundle (.obj [("_id", .str "op-1")]) = .ok { id := "op-1" }
    ∧ (∀ fs, jsonField fs "_id" = none → jsonField fs "id" = none →
        parseCertificationProject (.obj fs) = .error (missingIdError "CertificationProject"))
    ∧ (∀ fs, jsonField fs "_id" = none → jsonField fs "id" = none →
        parseOperatorBundle (.obj fs) = .error (missingIdError "OperatorBundle"))
    ∧ (∀ fs, jsonField fs "_id" = none → jsonField fs "id" = none →
        ∃ msg, parseContainerImage (.obj fs) = .error msg
          ∧ get_image_details_tool "img-1" (.ok (.obj fs))
              = "Unexpected error: " ++ msg) := by
  refine ⟨rfl, rfl, rfl, parseCertificationProject_missing_id,
    parseOperatorBundle_missing_id, ?_⟩
  intro fs h1 h2
  refine ⟨missingIdError "ContainerImage", parseContainerImage_missing_id fs h1 h2, ?_⟩
  have hs : (pyStrip "img-1" == "") = false := by decide
  simp [get_image_details_tool, hs, parseContainerImage_missing_id fs h1 h2]

/-- C9 witness: a concrete payload carrying other keys but no identity
field. -/
theorem claim_C9_witness :
    ∃ msg, parseContainerImage (.obj [("architecture", .str "amd64")]) = .error msg
      ∧ get_image_details_tool "img-1" (.ok (.obj [("architecture", .str "amd64")]))
          = "Unexpected error: " ++ msg :=
  claim_C9.2.2.2.2.2 [("architecture", .str "amd64")] rfl rfl
